import Mathlib

/-!
Verification of the `_xsleep.py` platform facade.

Shallow embedding conventions:
* Python strings are Lean `String`, Python ints are `Int`/`Nat`, Python floats
  are modelled as exact rationals `ℚ` (the claims under study concern unit
  conversion, truncation and delegation structure, not IEEE rounding).
* `sys.platform`, `ctypes.CDLL` outcomes, file contents, environment
  variables and `sysctlbyname` outcomes are supplied by an explicit
  environment record `Env`.
* Fallible Python code is embedded as `Except PyError _`; an uncaught Python
  exception is an `Except.error`.
* Side effects of the sleep paths (writes to standard output via `print`,
  invocations of the bound native sleep primitive) are embedded as an explicit
  trace, a `List Event`.
* Python's numeric-to-string formatting inside the progress message is
  rendered with an explicit integer/rational printer; the exact digit
  rendering of floats is not contract-relevant for any claim.
-/

/-- Python-level exceptions that the embedded code can raise.
`nameError n` models `NameError: name 'n' is not defined` (an identifier
used without being imported/defined), `osError` models `OSError`
(including the loader errors of `ctypes.CDLL` and failed `open` calls),
`valueError`/`indexError` model failed `int()`/`float()` parses and
out-of-range indexing. -/
inductive PyError
  | osError (msg : String)
  | nameError (name : String)
  | valueError (tok : String)
  | indexError
  deriving DecidableEq, Repr

/-- Where the bound native blocking-sleep primitive was resolved from:
`ctypes.windll.kernel32.Sleep` on Windows, or `usleep` of a library
loaded with `ctypes.CDLL path` on Linux/Darwin. -/
inductive LibSource
  | windllKernel32
  | cdll (path : String)
  deriving DecidableEq, Repr

/-- The pair returned by `_get_sleep_func`: the multiplier `sleep_unit`
(1000 for milliseconds, 1000000 for microseconds) and the provenance of
the bound sleep primitive. -/
structure SleepBinding where
  sleepUnit : ℕ
  lib : LibSource
  deriving DecidableEq, Repr

/-- The host environment the Python process runs in.
`loadLib name` tells whether `ctypes.CDLL name` succeeds; when it fails the
raised `OSError` carries the loader message `loadErrMsg name`.
`readFile path` is `some contents` when `open path` succeeds, `none` when it
raises `OSError`. `getEnvVar` is `os.environ.get`. `sysctl name` is
`some v` when `sysctlbyname(name, ...)` returns success having written `v`
into the output buffer, and `none` when it fails (returns -1, buffer
untouched). -/
structure Env where
  loadLib : String → Bool
  loadErrMsg : String → String
  readFile : String → Option String
  getEnvVar : String → Option String
  sysctl : String → Option ℤ

/-- Boolean test that `l` begins with the pattern `p` (character lists). -/
def listStarts : List Char → List Char → Bool
  | [], _ => true
  | _ :: _, [] => false
  | p :: ps, c :: cs => p == c && listStarts ps cs

/-- Embedding of Python's `s.startswith(pre)`. -/
def pyStartswith (s pre : String) : Bool :=
  listStarts pre.toList s.toList

/-- Embedding of `_get_sleep_func` (src/_xsleep.py lines 8-34).
On `win32*` it binds `kernel32.Sleep` with `sleep_unit = 1000`.
On `linux*`/`darwin*` it loads `libc.so.6` (Linux) resp. `libc.dylib`
(Darwin); when that load raises `OSError` it retries with the literal path
`"/usr/lib/libc.dylib"` (the `except OSError` branch), and a failure of that
second load is an uncaught loader `OSError`. It then binds `usleep` with
`sleep_unit = 1000000`. Any other platform raises
`OSError("Unsupported operating system.")`. -/
def getSleepFunc (env : Env) (plat : String) : Except PyError SleepBinding :=
  if pyStartswith plat "win32" then
    .ok ⟨1000, .windllKernel32⟩
  else if pyStartswith plat "linux" || pyStartswith plat "darwin" then
    let libcName := if pyStartswith plat "darwin" then "libc.dylib" else "libc.so.6"
    if env.loadLib libcName then
      .ok ⟨1000000, .cdll libcName⟩
    else if env.loadLib "/usr/lib/libc.dylib" then
      .ok ⟨1000000, .cdll "/usr/lib/libc.dylib"⟩
    else
      .error (.osError (env.loadErrMsg "/usr/lib/libc.dylib"))
  else
    .error (.osError "Unsupported operating system.")

/-- Embedding of Python's `int(x)` on a float: truncation toward zero. -/
def pyInt (q : ℚ) : ℤ :=
  if 0 ≤ q then ⌊q⌋ else ⌈q⌉

/-- Observable effects of the sleep paths: text written to standard output
by `print`, and invocations of the bound native sleep primitive with their
integer argument. -/
inductive Event
  | stdout (s : String)
  | nativeSleep (t : ℤ)
  deriving DecidableEq, Repr

/-- Renders the progress line of `_sleep`
(`f"Sleeping for {seconds} seconds ({time_to_sleep} ...)..."`), with the
rational printed as `num` or `num/den` (Python's float digit rendering is
abstracted; no claim depends on it). -/
def sleepingMsg (seconds : ℚ) (t : ℤ) (unit : ℕ) : String :=
  "Sleeping for " ++ toString seconds.num ++
    (if seconds.den == 1 then "" else "/" ++ toString seconds.den) ++
    " seconds (" ++ toString t ++ " " ++
    (if unit == 1000 then "milliseconds" else "microseconds") ++ ")..."

namespace XSleep

/-- Embedding of `XSleep._sleep` (lines 56-61) on an instance whose bound
`sleep_unit` is `unit`: computes `int(seconds * sleep_unit)`, prints the
progress line, invokes the bound native primitive with that integer, prints
`"Awake!"`. -/
def internalSleep (unit : ℕ) (seconds : ℚ) : List Event :=
  let t := pyInt (seconds * (unit : ℚ))
  [.stdout (sleepingMsg seconds t unit ++ "\n"),
   .nativeSleep t,
   .stdout "Awake!\n"]

/-- Embedding of `XSleep.milliseconds`: `self._sleep(ms / 1000)`. -/
def milliseconds (unit : ℕ) (ms : ℚ) : List Event :=
  internalSleep unit (ms / 1000)

/-- Embedding of `XSleep.seconds`: `self._sleep(secs)`. -/
def seconds (unit : ℕ) (secs : ℚ) : List Event :=
  internalSleep unit secs

/-- Embedding of `XSleep.minutes`: `self._sleep(mins * 60)`. -/
def minutes (unit : ℕ) (mins : ℚ) : List Event :=
  internalSleep unit (mins * 60)

/-- Embedding of `XSleep.hours`: `self._sleep(hrs * 3600)`. -/
def hours (unit : ℕ) (hrs : ℚ) : List Event :=
  internalSleep unit (hrs * 3600)

/-- Embedding of `XSleep.get_random_delay` (lines 92-95).
`random.uniform(a, b)` returns `a + (b - a) * random()`; the drawn
`random()` value `r ∈ [0, 1)` is passed explicitly. The method performs no
validation of `min_seconds <= max_seconds` and delegates straight to
`_sleep`. -/
def getRandomDelay (unit : ℕ) (minSeconds maxSeconds r : ℚ) : List Event :=
  internalSleep unit (minSeconds + (maxSeconds - minSeconds) * r)

/-- Embedding of `XSleep.print_message_with_delay` (lines 186-191): for each
character, `print(char, end='', flush=True)` then `self._sleep(delay)`;
after the loop a bare `print()` writes a newline. -/
def printMessageWithDelay (unit : ℕ) (message : String) (delay : ℚ) : List Event :=
  (message.toList.map (fun c => Event.stdout c.toString :: internalSleep unit delay)).flatten
    ++ [.stdout "\n"]

end XSleep

/-- Concatenation of everything the trace wrote to standard output. -/
def stdoutString (es : List Event) : String :=
  es.foldl (fun acc e => match e with | .stdout s => acc ++ s | _ => acc) ""

/-- Arguments of the native sleep invocations of a trace, in order. -/
def nativeArgs (es : List Event) : List ℤ :=
  es.filterMap fun e => match e with | .nativeSleep t => some t | _ => none

/-- Benign concrete environment for witnesses: every library loads, the
`proc` pseudo-files read as on a small Linux box, `USER` is set, `sysctl`
answers. -/
def env0 : Env where
  loadLib := fun _ => true
  loadErrMsg := fun p => "cannot load library " ++ p
  readFile := fun p =>
    if p = "/proc/cpuinfo" then some "processor\t: 0\nprocessor\t: 1\n"
    else if p = "/proc/uptime" then some "350735.47 234388.90\n"
    else if p = "/proc/meminfo" then some "MemTotal: 2048 kB\nMemAvailable: 1024 kB\n"
    else none
  getEnvVar := fun v => if v = "USER" then some "alice" else none
  sysctl := fun n => if n = "hw.ncpu" then some 8 else none

/-- Helper: a list beginning with `p :: ps` begins with `p`. -/
theorem listStarts_cons {p : Char} {ps l : List Char}
    (h : listStarts (p :: ps) l = true) :
    ∃ t, l = p :: t ∧ listStarts ps t = true := by
  cases l with
  | nil => simp [listStarts] at h
  | cons c cs =>
      simp only [listStarts, Bool.and_eq_true, beq_iff_eq] at h
      exact ⟨cs, by rw [h.1], h.2⟩

/-- Helper: patterns with distinct head characters cannot both be prefixes. -/
theorem listStarts_head_ne {a b : Char} (hab : a ≠ b) {as bs : List Char}
    (l : List Char) (h : listStarts (a :: as) l = true) :
    listStarts (b :: bs) l = false := by
  obtain ⟨t, rfl, -⟩ := listStarts_cons h
  simp [listStarts, hab.symm]

/-- A platform starting with "linux" does not start with "win32". -/
theorem linux_not_win {plat : String} (h : pyStartswith plat "linux" = true) :
    pyStartswith plat "win32" = false :=
  listStarts_head_ne (by decide) plat.toList h

/-- A platform starting with "darwin" does not start with "win32". -/
theorem darwin_not_win {plat : String} (h : pyStartswith plat "darwin" = true) :
    pyStartswith plat "win32" = false :=
  listStarts_head_ne (by decide) plat.toList h

/-- A platform starting with "linux" does not start with "darwin". -/
theorem linux_not_darwin {plat : String} (h : pyStartswith plat "linux" = true) :
    pyStartswith plat "darwin" = false :=
  listStarts_head_ne (by decide) plat.toList h

/-- C1: binding maps Windows platforms to sleep unit 1000 (milliseconds),
Linux/Darwin platforms to sleep unit 1000000 (microseconds) whenever a
binding is produced, and every other platform identifier to a construction
failure with no binding. -/
theorem C1_bind_sleep_unit (env : Env) (plat : String) :
    (pyStartswith plat "win32" = true →
      getSleepFunc env plat = .ok ⟨1000, .windllKernel32⟩) ∧
    ((pyStartswith plat "linux" = true ∨ pyStartswith plat "darwin" = true) →
      ∀ b, getSleepFunc env plat = .ok b → b.sleepUnit = 1000000) ∧
    (pyStartswith plat "win32" = false → pyStartswith plat "linux" = false →
      pyStartswith plat "darwin" = false →
      getSleepFunc env plat = .error (.osError "Unsupported operating system.")) := by
  refine ⟨fun hw => ?_, fun hld b hb => ?_, fun hw hl hd => ?_⟩
  · simp [getSleepFunc, hw]
  · have hw : pyStartswith plat "win32" = false := by
      cases hld with
      | inl h => exact linux_not_win h
      | inr h => exact darwin_not_win h
    have hld' : (pyStartswith plat "linux" || pyStartswith plat "darwin") = true := by
      cases hld with
      | inl h => simp [h]
      | inr h => simp [h]
    simp only [getSleepFunc, hw, hld', Bool.false_eq_true, if_false, if_true] at hb
    rcases h1 : env.loadLib (if pyStartswith plat "darwin" then "libc.dylib" else "libc.so.6") with _ | _ <;>
      rcases h2 : env.loadLib "/usr/lib/libc.dylib" with _ | _ <;>
        simp [h1, h2] at hb <;> simp [← hb]
  · simp [getSleepFunc, hw, hl, hd]

/-- C1 witness: concrete platforms exercising each clause. -/
theorem C1_bind_sleep_unit_witness :
    getSleepFunc env0 "win32" = .ok ⟨1000, .windllKernel32⟩ ∧
    SleepBinding.sleepUnit ⟨1000000, .cdll "libc.so.6"⟩ = 1000000 ∧
    getSleepFunc env0 "solaris" = .error (.osError "Unsupported operating system.") :=
  ⟨(C1_bind_sleep_unit env0 "win32").1 (by decide),
   (C1_bind_sleep_unit env0 "linux").2.1 (Or.inl (by decide))
     ⟨1000000, .cdll "libc.so.6"⟩ rfl,
   (C1_bind_sleep_unit env0 "solaris").2.2 (by decide) (by decide) (by decide)⟩

/-- Environment where `libc.so.6` fails to load but the fallback path
`/usr/lib/libc.dylib` loads. -/
def envFallbackOk : Env :=
  { env0 with loadLib := fun p => p = "/usr/lib/libc.dylib" }

/-- Environment where every library load fails. -/
def envNoLibs : Env :=
  { env0 with loadLib := fun _ => false }

/-- C10: on a Linux host where loading `libc.so.6` fails, binding attempts
the Darwin path `/usr/lib/libc.dylib`: if that load succeeds the binding is
produced from it, and if it also fails the surfaced error is exactly the
loader's generic `OSError` for that path (the code defines no distinct
NativeLibraryNotFoundError). -/
theorem C10_linux_dylib_fallback (env : Env) (plat : String)
    (hl : pyStartswith plat "linux" = true)
    (hfail : env.loadLib "libc.so.6" = false) :
    (env.loadLib "/usr/lib/libc.dylib" = true →
      getSleepFunc env plat = .ok ⟨1000000, .cdll "/usr/lib/libc.dylib"⟩) ∧
    (env.loadLib "/usr/lib/libc.dylib" = false →
      getSleepFunc env plat = .error (.osError (env.loadErrMsg "/usr/lib/libc.dylib"))) := by
  have hw : pyStartswith plat "win32" = false := linux_not_win hl
  have hd : pyStartswith plat "darwin" = false := linux_not_darwin hl
  refine ⟨fun hok => ?_, fun hko => ?_⟩
  · simp [getSleepFunc, hw, hl, hd, hfail, hok]
  · simp [getSleepFunc, hw, hl, hd, hfail, hko]

/-- C10 witness: concrete environments exercising both outcomes of the
fallback on the platform string "linux". -/
theorem C10_linux_dylib_fallback_witness :
    getSleepFunc envFallbackOk "linux" = .ok ⟨1000000, .cdll "/usr/lib/libc.dylib"⟩ ∧
    getSleepFunc envNoLibs "linux" =
      .error (.osError "cannot load library /usr/lib/libc.dylib") :=
  ⟨(C10_linux_dylib_fallback envFallbackOk "linux" (by decide) (by decide)).1 (by decide),
   (C10_linux_dylib_fallback envNoLibs "linux" (by decide) (by decide)).2 (by decide)⟩


/-- Boolean test that `needle` occurs as a contiguous substring of `hay`. -/
def containsSub (hay needle : String) : Bool :=
  (List.range (hay.toList.length + 1)).any fun i =>
    listStarts needle.toList (hay.toList.drop i)

/-- C8 counterexample: on the unsupported platform "solaris" the binding
error is the fixed message "Unsupported operating system.", which does not
contain the host platform identifier. -/
theorem C8_counterexample :
    getSleepFunc env0 "solaris" = .error (.osError "Unsupported operating system.") ∧
    containsSub "Unsupported operating system." "solaris" = false :=
  ⟨rfl, by decide⟩

/-- C8 amended: for every unsupported host platform identifier the binding
error carries the fixed, platform-independent message
"Unsupported operating system."; the host platform identifier is not
interpolated into it. -/
theorem C8_amended_fixed_message (env : Env) (plat : String)
    (hw : pyStartswith plat "win32" = false)
    (hl : pyStartswith plat "linux" = false)
    (hd : pyStartswith plat "darwin" = false) :
    getSleepFunc env plat = .error (.osError "Unsupported operating system.") := by
  simp [getSleepFunc, hw, hl, hd]

/-- C8 amended witness: the unsupported platform "solaris". -/
theorem C8_amended_fixed_message_witness :
    getSleepFunc env0 "solaris" = .error (.osError "Unsupported operating system.") :=
  C8_amended_fixed_message env0 "solaris" (by decide) (by decide) (by decide)


/-- C6: every unit wrapper delegates to the single internal sleep primitive
with the converted seconds value (ms/1000, s, m*60, h*3600), and
`minutes 1` hands the native primitive exactly what `seconds 60` does. -/
theorem C6_unit_wrappers (unit : ℕ) (v : ℚ) (h : 0 ≤ v) :
    XSleep.milliseconds unit v = XSleep.internalSleep unit (v / 1000) ∧
    XSleep.seconds unit v = XSleep.internalSleep unit v ∧
    XSleep.minutes unit v = XSleep.internalSleep unit (v * 60) ∧
    XSleep.hours unit v = XSleep.internalSleep unit (v * 3600) ∧
    XSleep.minutes unit 1 = XSleep.seconds unit 60 := by
  refine ⟨rfl, rfl, rfl, rfl, ?_⟩
  unfold XSleep.minutes XSleep.seconds
  norm_num

/-- C6 witness: the wrappers at the Windows binding and duration 5. -/
theorem C6_unit_wrappers_witness :
    (0:ℚ) ≤ 5 ∧ XSleep.minutes 1000 1 = XSleep.seconds 1000 60 :=
  ⟨by norm_num, (C6_unit_wrappers 1000 5 (by norm_num)).2.2.2.2⟩

/-- C7: with the degenerate range min = max = 1, the randomized sleep
produces, for every drawn random value, exactly the trace of
`seconds 1`: the same native invocation and the same observable effects. -/
theorem C7_random_degenerate (unit : ℕ) (r : ℚ) :
    XSleep.getRandomDelay unit 1 1 r = XSleep.seconds unit 1 := by
  unfold XSleep.getRandomDelay XSleep.seconds
  norm_num

/-- C9: the internal sleep primitive performs exactly one native invocation,
whose integer argument is the truncation of `seconds * sleepUnit`; for a
non-negative duration the truncation is the floor. -/
theorem C9_truncated_native_arg (unit : ℕ) (s : ℚ) (h : 0 ≤ s) :
    nativeArgs (XSleep.internalSleep unit s) = [pyInt (s * (unit : ℚ))] ∧
    pyInt (s * (unit : ℚ)) = ⌊s * (unit : ℚ)⌋ := by
  refine ⟨rfl, ?_⟩
  unfold pyInt
  rw [if_pos (mul_nonneg h (by positivity))]

/-- C9 witness: at the microseconds binding scaled so that the product is
1.9, the native argument is 1 (truncation, not rounding to 2). -/
theorem C9_truncated_native_arg_witness :
    (0:ℚ) ≤ 19/10000000 ∧
    nativeArgs (XSleep.internalSleep 1000000 (19/10000000)) = [1] := by
  refine ⟨by norm_num, ?_⟩
  rw [(C9_truncated_native_arg 1000000 (19/10000000) (by norm_num)).1]
  have h19 : (19/10000000 : ℚ) * ((1000000 : ℕ) : ℚ) = 19/10 := by norm_num
  rw [h19]
  norm_num [pyInt]


/-- C4 counterexample: `get_random_delay(2, 1)` does not fail — with the
drawn random value 0 it invokes the native primitive with 2000000
microseconds, i.e. a sleep is performed despite min > max. -/
theorem C4_counterexample :
    Event.nativeSleep 2000000 ∈ XSleep.getRandomDelay 1000000 2 1 0 := by
  unfold XSleep.getRandomDelay XSleep.internalSleep
  simp
  norm_num [pyInt]

/-- C4 amended: for min > max the randomized sleep performs no validation
and raises no error; it draws `min + (max - min) * r` — a value in
`(max, min]` for `r ∈ [0, 1)` — and hands exactly that duration to the
internal sleep primitive. -/
theorem C4_amended_no_validation (unit : ℕ) (mn mx r : ℚ)
    (hlt : mx < mn) (hr0 : 0 ≤ r) (hr1 : r < 1) :
    XSleep.getRandomDelay unit mn mx r =
      XSleep.internalSleep unit (mn + (mx - mn) * r) ∧
    mx < mn + (mx - mn) * r ∧ mn + (mx - mn) * r ≤ mn := by
  refine ⟨rfl, ?_, ?_⟩
  · nlinarith [mul_pos (by linarith : (0:ℚ) < mn - mx) (by linarith : (0:ℚ) < 1 - r)]
  · nlinarith [mul_nonneg (by linarith : (0:ℚ) ≤ mn - mx) hr0]

/-- C4 amended witness: min = 2, max = 1, drawn random value 1/2. -/
theorem C4_amended_no_validation_witness :
    (1:ℚ) < 2 ∧
    XSleep.getRandomDelay 1000000 2 1 (1/2) =
      XSleep.internalSleep 1000000 (2 + (1 - 2) * (1/2)) :=
  ⟨by norm_num,
   (C4_amended_no_validation 1000000 2 1 (1/2) (by norm_num) (by norm_num) (by norm_num)).1⟩

/-- Helper: the full trace of `print_message_with_delay("ab", 0)` for any
bound sleep unit: each character is followed by the progress line, a native
sleep of 0, and the "Awake!" line; a final newline closes the call. -/
theorem printAbZero_trace (unit : ℕ) :
    XSleep.printMessageWithDelay unit "ab" 0 =
      [.stdout "a", .stdout (sleepingMsg 0 0 unit ++ "\n"), .nativeSleep 0, .stdout "Awake!\n",
       .stdout "b", .stdout (sleepingMsg 0 0 unit ++ "\n"), .nativeSleep 0, .stdout "Awake!\n",
       .stdout "\n"] := by
  have hab : "ab".toList = ['a', 'b'] := rfl
  have h0 : pyInt 0 = 0 := by norm_num [pyInt]
  have ha : 'a'.toString = "a" := rfl
  have hb : 'b'.toString = "b" := rfl
  unfold XSleep.printMessageWithDelay XSleep.internalSleep
  rw [hab]
  simp [h0, ha, hb]

/-- C3 counterexample: with the microseconds binding, the standard-output
text of `print_message_with_delay("ab", 0)` is not the two characters
"ab" — the internal sleep's progress lines and the trailing newline are
interleaved with them. -/
theorem C3_counterexample :
    stdoutString (XSleep.printMessageWithDelay 1000000 "ab" 0) ≠ "ab" := by
  rw [printAbZero_trace 1000000]
  decide

/-- C3 amended: `printWithDelay("ab", 0)` writes 'a' then 'b' in that order
to standard output, but interleaved with the progress notification that the
internal sleep primitive prints before and after each pause and followed by
a trailing newline; each of the two pauses passes 0 to the native
primitive (zero-duration pause). -/
theorem C3_amended_interleaved (unit : ℕ) :
    XSleep.printMessageWithDelay unit "ab" 0 =
      [.stdout "a", .stdout (sleepingMsg 0 0 unit ++ "\n"), .nativeSleep 0, .stdout "Awake!\n",
       .stdout "b", .stdout (sleepingMsg 0 0 unit ++ "\n"), .nativeSleep 0, .stdout "Awake!\n",
       .stdout "\n"] :=
  printAbZero_trace unit


/-- Value of a nonempty all-digit character list, `none` otherwise. -/
def digitsVal (l : List Char) : Option ℕ :=
  if l.isEmpty then none
  else if l.all Char.isDigit then
    some (l.foldl (fun n c => 10 * n + (c.toNat - 48)) 0)
  else none

/-- Whitespace stripped from both ends of a character list (Python's
`str.strip()` with no argument). -/
def trimList (l : List Char) : List Char :=
  ((l.dropWhile Char.isWhitespace).reverse.dropWhile Char.isWhitespace).reverse

/-- Split of a character list at every occurrence of `sep`, keeping empty
pieces (the shape of Python's `str.split(sep)`). -/
def splitOnChar (sep : Char) (l : List Char) : List (List Char) :=
  l.foldr (fun c acc =>
    match acc with
    | [] => [[c]]
    | a :: as => if c = sep then [] :: a :: as else (c :: a) :: as) [[]]

/-- Embedding of Python's `str.split()` with no argument: split on runs of
whitespace, dropping empty tokens. -/
def splitWsList (l : List Char) : List (List Char) :=
  (l.foldr (fun c acc =>
    match acc with
    | [] => if c.isWhitespace then [[]] else [[c]]
    | a :: as => if c.isWhitespace then [] :: a :: as else (c :: a) :: as) [[]]).filter
    (fun t => !t.isEmpty)

/-- Embedding of Python's `int(s)` on a string: strips whitespace, accepts
an optional sign followed by digits; `none` models a raised `ValueError`. -/
def parsePyIntL (l : List Char) : Option ℤ :=
  match trimList l with
  | '-' :: rest => (digitsVal rest).map (fun n => -(n : ℤ))
  | '+' :: rest => (digitsVal rest).map (fun n => (n : ℤ))
  | t => (digitsVal t).map (fun n => (n : ℤ))

/-- Embedding of Python's `float(s)` on the decimal forms
`[+-]digits`, `[+-]digits.`, `[+-].digits`, `[+-]digits.digits` after
stripping whitespace (exponent and special forms are not exercised by the
embedded code paths and are parsed as failures). `none` models a raised
`ValueError`. -/
def parsePyFloatL (l : List Char) : Option ℚ :=
  let t := trimList l
  let sign : ℚ := match t with | '-' :: _ => -1 | _ => 1
  let body := match t with | '-' :: r => r | '+' :: r => r | _ => t
  match splitOnChar '.' body with
  | [ip] => (digitsVal ip).map (fun n => sign * n)
  | [ip, fp] =>
      if ip.isEmpty && fp.isEmpty then none
      else
        let ipv : Option ℕ := if ip.isEmpty then some 0 else digitsVal ip
        let fpv : Option (ℕ × ℕ) :=
          if fp.isEmpty then some (0, 1)
          else (digitsVal fp).map (fun n => (n, 10 ^ fp.length))
        match ipv, fpv with
        | some i, some (f, d) => some (sign * ((i : ℚ) + (f : ℚ) / (d : ℚ)))
        | _, _ => none
  | _ => none

/-- Embedding of Python's `f.readline()`: content up to the first newline. -/
def firstLine (s : String) : List Char :=
  s.toList.takeWhile (fun c => c ≠ '\n')

/-- Number of lines of `content` whose stripped form starts with
"processor" (the Linux branch of `get_cpu_count` iterating over
`/proc/cpuinfo`). -/
def countProcessorLines (content : String) : ℕ :=
  ((splitOnChar '\n' content.toList).filter
    (fun l => listStarts "processor".toList (trimList l))).length

/-- Embedding of `XSleep.get_cpu_count` (lines 72-90).
Windows: `int(os.environ.get('NUMBER_OF_PROCESSORS', 1))` — a set but
non-numeric value raises `ValueError`, an unset variable yields `int(1)`.
Linux: counts `processor` lines of `/proc/cpuinfo`; an unreadable file is
an uncaught `OSError` from `open`. Darwin: loads `libc.dylib` (uncaught
`OSError` on failure), calls `sysctlbyname("hw.ncpu", ...)` ignoring its
return code and returns the output buffer, which keeps its initial value 0
when the call wrote nothing. Other platforms: 1. -/
def getCpuCount (env : Env) (plat : String) : Except PyError ℤ :=
  if pyStartswith plat "win32" then
    match env.getEnvVar "NUMBER_OF_PROCESSORS" with
    | some s =>
        match parsePyIntL s.toList with
        | some n => .ok n
        | none => .error (.valueError s)
    | none => .ok 1
  else if pyStartswith plat "linux" then
    match env.readFile "/proc/cpuinfo" with
    | none => .error (.osError "cannot open /proc/cpuinfo")
    | some content => .ok (countProcessorLines content : ℤ)
  else if pyStartswith plat "darwin" then
    if env.loadLib "libc.dylib" then
      .ok ((env.sysctl "hw.ncpu").getD 0)
    else
      .error (.osError (env.loadErrMsg "libc.dylib"))
  else
    .ok 1

/-- Embedding of `XSleep.get_uptime` (lines 105-123).
Linux: `float(readline(/proc/uptime).split()[0])`; unreadable file is an
uncaught `OSError`, a blank first line an `IndexError`, a malformed token a
`ValueError`. Darwin: loads `libc.dylib` (uncaught `OSError` on failure);
when `sysctlbyname("kern.boottime", ...)` does not return -1 the code
evaluates `time.time()`, but the module `time` is never imported, so a
`NameError` is raised; when it returns -1 the code returns `None`.
Windows: `int(time.time() - psutil.boot_time())` evaluates `time.time()`
first and the module `time` is never imported (nor is `psutil`), so a
`NameError` on `time` is raised. Other platforms: `None`. -/
def getUptime (env : Env) (plat : String) : Except PyError (Option ℚ) :=
  if pyStartswith plat "linux" then
    match env.readFile "/proc/uptime" with
    | none => .error (.osError "cannot open /proc/uptime")
    | some content =>
        match splitWsList (firstLine content) with
        | [] => .error .indexError
        | tok :: _ =>
            match parsePyFloatL tok with
            | none => .error (.valueError ⟨tok⟩)
            | some q => .ok (some q)
  else if pyStartswith plat "darwin" then
    if env.loadLib "libc.dylib" then
      match env.sysctl "kern.boottime" with
      | some _ => .error (.nameError "time")
      | none => .ok none
    else
      .error (.osError (env.loadErrMsg "libc.dylib"))
  else if pyStartswith plat "win32" then
    .error (.nameError "time")
  else
    .ok none

/-- Scan of the `/proc/meminfo` lines for the first one starting with
"MemAvailable:", returning `int(line.split()[1]) * 1024`: fewer than two
tokens raise `IndexError`, a non-numeric second token raises `ValueError`,
no matching line falls through to `None`. -/
def memAvailScan : List (List Char) → Except PyError (Option ℤ)
  | [] => .ok none
  | l :: ls =>
      if listStarts "MemAvailable:".toList l then
        match splitWsList l with
        | _ :: tok :: _ =>
            match parsePyIntL tok with
            | some n => .ok (some (n * 1024))
            | none => .error (.valueError ⟨tok⟩)
        | _ => .error .indexError
      else
        memAvailScan ls

/-- Embedding of `XSleep.get_free_memory` (lines 125-154).
Linux: scans `/proc/meminfo` for `MemAvailable:` (unreadable file is an
uncaught `OSError`). Darwin: after loading `libc.dylib` the code calls
`vm_statistics()`, a name defined nowhere, so a `NameError` is raised.
Windows: the code references `MEMORYSTATUSEX`, a name defined nowhere, so
a `NameError` is raised. Other platforms: `None`. -/
def getFreeMemory (env : Env) (plat : String) : Except PyError (Option ℤ) :=
  if pyStartswith plat "linux" then
    match env.readFile "/proc/meminfo" with
    | none => .error (.osError "cannot open /proc/meminfo")
    | some content => memAvailScan (splitOnChar '\n' content.toList)
  else if pyStartswith plat "darwin" then
    if env.loadLib "libc.dylib" then
      .error (.nameError "vm_statistics")
    else
      .error (.osError (env.loadErrMsg "libc.dylib"))
  else if pyStartswith plat "win32" then
    .error (.nameError "MEMORYSTATUSEX")
  else
    .ok none

/-- Embedding of `XSleep.get_username` (lines 156-161): `USERNAME` on
Windows, `USER` elsewhere; `os.environ.get` never raises. -/
def getUsername (env : Env) (plat : String) : Option String :=
  if pyStartswith plat "win32" then env.getEnvVar "USERNAME"
  else env.getEnvVar "USER"


/-- Evaluated platform checks used to discharge the branch conditions. -/
theorem pw_win_self : pyStartswith "win32" "win32" = true := by decide

theorem pw_win_linux : pyStartswith "win32" "linux" = false := by decide

theorem pw_win_darwin : pyStartswith "win32" "darwin" = false := by decide

theorem pw_linux_win : pyStartswith "linux" "win32" = false := by decide

theorem pw_linux_self : pyStartswith "linux" "linux" = true := by decide

theorem pw_linux_darwin : pyStartswith "linux" "darwin" = false := by decide

theorem pw_darwin_win : pyStartswith "darwin" "win32" = false := by decide

theorem pw_darwin_linux : pyStartswith "darwin" "linux" = false := by decide

theorem pw_darwin_self : pyStartswith "darwin" "darwin" = true := by decide

/-- C2: the introspection queries are claimed never to raise, but
`get_uptime` on Windows evaluates `time.time()` and `get_free_memory` on
Windows references `MEMORYSTATUSEX`, names that are never imported or
defined in the module, so both raise `NameError` instead of returning an
absent value — in every environment. -/
theorem C2_introspection_raises (env : Env) :
    getUptime env "win32" = .error (.nameError "time") ∧
    getFreeMemory env "win32" = .error (.nameError "MEMORYSTATUSEX") :=
  ⟨rfl, rfl⟩

/-- Environment whose `/proc/cpuinfo` is readable but lists no
`processor` lines (as on kernels with a different cpuinfo layout). -/
def envNoProcLines : Env :=
  { env0 with readFile := fun p =>
      if p = "/proc/cpuinfo" then some "flags\t: fpu\n" else none }

/-- Environment where no pseudo-file is readable. -/
def envNoFiles : Env :=
  { env0 with readFile := fun _ => none }

/-- C5 counterexample: on Linux with a readable `/proc/cpuinfo` containing
no `processor` line, `get_cpu_count` returns 0, below the claimed lower
bound of 1; and with an unreadable `/proc/cpuinfo` it raises instead of
returning the claimed conservative default 1. -/
theorem C5_counterexample :
    getCpuCount envNoProcLines "linux" = .ok 0 ∧ ¬ (1 ≤ (0:ℤ)) ∧
    getCpuCount envNoFiles "linux" = .error (.osError "cannot open /proc/cpuinfo") :=
  ⟨rfl, by decide, rfl⟩

/-- C5 amended: `get_cpu_count` guarantees no lower bound of 1. On Windows
an unset `NUMBER_OF_PROCESSORS` yields 1; on Linux a readable
`/proc/cpuinfo` yields exactly the count of its `processor` lines (possibly
0, never negative) while an unreadable one raises; on Darwin a loadable
`libc.dylib` yields the sysctl-written value, which is 0 when the call
writes nothing. -/
theorem C5_amended_cpu_count (env : Env) :
    (env.getEnvVar "NUMBER_OF_PROCESSORS" = none → getCpuCount env "win32" = .ok 1) ∧
    (∀ content, env.readFile "/proc/cpuinfo" = some content →
      getCpuCount env "linux" = .ok (countProcessorLines content) ∧
      0 ≤ (countProcessorLines content : ℤ)) ∧
    (env.readFile "/proc/cpuinfo" = none →
      getCpuCount env "linux" = .error (.osError "cannot open /proc/cpuinfo")) ∧
    (env.loadLib "libc.dylib" = true → env.sysctl "hw.ncpu" = none →
      getCpuCount env "darwin" = .ok 0) := by
  refine ⟨fun h => ?_, fun content hc => ⟨?_, Int.natCast_nonneg _⟩,
    fun h => ?_, fun h h0 => ?_⟩
  · simp [getCpuCount, pw_win_self, h]
  · simp [getCpuCount, pw_linux_win, pw_linux_self, hc]
  · simp [getCpuCount, pw_linux_win, pw_linux_self, h]
  · simp [getCpuCount, pw_darwin_win, pw_darwin_linux, pw_darwin_self, h, h0]

/-- C5 amended witness: the benign Linux environment with two `processor`
lines, evaluated to 2. -/
theorem C5_amended_cpu_count_witness :
    getCpuCount env0 "linux" = .ok (countProcessorLines "processor\t: 0\nprocessor\t: 1\n") ∧
    countProcessorLines "processor\t: 0\nprocessor\t: 1\n" = 2 :=
  ⟨((C5_amended_cpu_count env0).2.1 "processor\t: 0\nprocessor\t: 1\n" rfl).1, by decide⟩


/-- C2 evaluation at a concrete environment. -/
theorem C2_introspection_raises_witness :
    getUptime env0 "win32" = .error (.nameError "time") ∧
    getFreeMemory env0 "win32" = .error (.nameError "MEMORYSTATUSEX") :=
  C2_introspection_raises env0

/-- C7 evaluation at the microseconds binding with drawn value 1/3. -/
theorem C7_random_degenerate_witness :
    XSleep.getRandomDelay 1000000 1 1 (1/3) = XSleep.seconds 1000000 1 :=
  C7_random_degenerate 1000000 (1/3)

/-- C3 amended trace at the microseconds binding. -/
theorem C3_amended_interleaved_witness :
    XSleep.printMessageWithDelay 1000000 "ab" 0 =
      [.stdout "a", .stdout (sleepingMsg 0 0 1000000 ++ "\n"), .nativeSleep 0, .stdout "Awake!\n",
       .stdout "b", .stdout (sleepingMsg 0 0 1000000 ++ "\n"), .nativeSleep 0, .stdout "Awake!\n",
       .stdout "\n"] :=
  C3_amended_interleaved 1000000

